import Mathlib

/-!
Verification development for the embedding service repository
(`main.py`, `worker.py`, `utils.py`, `models.py`, `database.py`, `schemas.py`).

The Python source is shallowly embedded: pure helpers become Lean functions,
the SQLAlchemy job table, the content-addressed blob directories and the
in-memory dispatch queue become an explicit `SysState` record, and each
`db.commit()` performed by the worker is recorded in an explicit commit trace.
Machine integers are modelled as `Nat` with explicit `% 2 ^ 32` wrapping where
the hash algorithm needs it.  Library calls whose behaviour the code relies on
(`hashlib.sha256(...).hexdigest()`, `bytes.decode("utf-8", errors="ignore")`)
are embedded as executable Lean functions implementing the same algorithm.
-/

/-! ## `utils.calculate_checksum`: SHA-256 hex digest (`hashlib.sha256(data).hexdigest()`) -/

/-- Wrap a natural number to a 32-bit word. -/
def w32 (n : Nat) : Nat := n % 4294967296

/-- Right rotation of a 32-bit word. -/
def rotr32 (x n : Nat) : Nat :=
  w32 (Nat.lor (Nat.shiftRight x n) (Nat.shiftLeft x (32 - n)))

/-- Three-way xor on words. -/
def xor3 (a b c : Nat) : Nat := Nat.xor (Nat.xor a b) c

/-- The 64 SHA-256 round constants. -/
def sha256K : List Nat :=
  [1116352408, 1899447441, 3049323471, 3921009573, 961987163, 1508970993,
   2453635748, 2870763221, 3624381080, 310598401, 607225278, 1426881987,
   1925078388, 2162078206, 2614888103, 3248222580, 3835390401, 4022224774,
   264347078, 604807628, 770255983, 1249150122, 1555081692, 1996064986,
   2554220882, 2821834349, 2952996808, 3210313671, 3336571891, 3584528711,
   113926993, 338241895, 666307205, 773529912, 1294757372, 1396182291,
   1695183700, 1986661051, 2177026350, 2456956037, 2730485921, 2820302411,
   3259730800, 3345764771, 3516065817, 3600352804, 4094571909, 275423344,
   430227734, 506948616, 659060556, 883997877, 958139571, 1322822218,
   1537002063, 1747873779, 1955562222, 2024104815, 2227730452, 2361852424,
   2428436474, 2756734187, 3204031479, 3329325298]

/-- The SHA-256 initial hash state. -/
def sha256H0 : List Nat :=
  [1779033703, 3144134277, 1013904242, 2773480762,
   1359893119, 2600822924, 528734635, 1541459225]

/-- Extend the 16 message words of a block to the 64-word schedule. -/
def extendSchedule (w0 : List Nat) : List Nat :=
  (List.range 48).foldl
    (fun w _ =>
      let t := w.length
      let x15 := w.getD (t - 15) 0
      let x2 := w.getD (t - 2) 0
      let s0 := w32 (xor3 (rotr32 x15 7) (rotr32 x15 18) (Nat.shiftRight x15 3))
      let s1 := w32 (xor3 (rotr32 x2 17) (rotr32 x2 19) (Nat.shiftRight x2 10))
      w ++ [w32 (w.getD (t - 16) 0 + s0 + w.getD (t - 7) 0 + s1)])
    w0

/-- One SHA-256 compression round applied to the 8-word working state. -/
def sha256Round (w : List Nat) (st : List Nat) (i : Nat) : List Nat :=
  match st with
  | [a, b, c, d, e, f, g, h0] =>
    let S1 := w32 (xor3 (rotr32 e 6) (rotr32 e 11) (rotr32 e 25))
    let ch := w32 (Nat.xor (Nat.land e f) (Nat.land (4294967295 - e) g))
    let temp1 := w32 (h0 + S1 + ch + sha256K.getD i 0 + w.getD i 0)
    let S0 := w32 (xor3 (rotr32 a 2) (rotr32 a 13) (rotr32 a 22))
    let maj := w32 (xor3 (Nat.land a b) (Nat.land a c) (Nat.land b c))
    let temp2 := w32 (S0 + maj)
    [w32 (temp1 + temp2), a, b, c, w32 (d + temp1), e, f, g]
  | other => other

/-- Compress one 16-word block into the running 8-word hash state. -/
def compressBlock (h : List Nat) (block : List Nat) : List Nat :=
  let w := extendSchedule block
  let fin := (List.range 64).foldl (sha256Round w) h
  (List.zip h fin).map (fun p => w32 (p.1 + p.2))

/-- Big-endian 8-byte encoding of a (64-bit) length. -/
def beBytes8 (n : Nat) : List Nat :=
  [n / 72057594037927936 % 256, n / 281474976710656 % 256,
   n / 1099511627776 % 256, n / 4294967296 % 256,
   n / 16777216 % 256, n / 65536 % 256, n / 256 % 256, n % 256]

/-- Big-endian 4-byte encoding of one word. -/
def beBytes4 (n : Nat) : List Nat :=
  [n / 16777216 % 256, n / 65536 % 256, n / 256 % 256, n % 256]

/-- SHA-256 padding: append `0x80`, zero bytes to 56 mod 64, then the bit length. -/
def sha256pad (msg : List Nat) : List Nat :=
  let len := msg.length
  let k := (120 - (len + 1) % 64) % 64
  msg ++ [128] ++ List.replicate k 0 ++ beBytes8 (len * 8)

/-- Pack bytes into big-endian 32-bit words. -/
def toWords : List Nat → List Nat
  | b0 :: b1 :: b2 :: b3 :: rest =>
    (b0 % 256 * 16777216 + b1 % 256 * 65536 + b2 % 256 * 256 + b3 % 256) :: toWords rest
  | _ => []

/-- Fold the padded message block by block through the compression function.
The fuel is an upper bound on the number of blocks; each step consumes 64 bytes. -/
def processBlocksF : Nat → List Nat → List Nat → List Nat
  | 0, h, _ => h
  | _, h, [] => h
  | n + 1, h, bytes => processBlocksF n (compressBlock h (toWords (bytes.take 64))) (bytes.drop 64)

/-- SHA-256 of a byte string, as the 32 digest bytes. -/
def sha256bytes (msg : List Nat) : List Nat :=
  let padded := sha256pad msg
  let hs := processBlocksF padded.length sha256H0 padded
  hs.foldr (fun word acc => beBytes4 word ++ acc) []

/-- Lower-case hex digit. -/
def hexDigit (n : Nat) : Char :=
  if n < 10 then Char.ofNat (48 + n) else Char.ofNat (87 + n)

/-- Lower-case hex string of a byte list. -/
def toHex (bytes : List Nat) : List Char :=
  bytes.foldr (fun b acc => hexDigit (b / 16 % 16) :: hexDigit (b % 16) :: acc) []

/-- Model of `utils.calculate_checksum`: `hashlib.sha256(data).hexdigest()`.
Bytes are modelled as naturals below 256. -/
def calculate_checksum (data : List Nat) : String :=
  ⟨toHex (sha256bytes data)⟩


/-! ## `bytes.decode("utf-8", errors="ignore")` (worker.py line 96)

Lossy UTF-8 decoding: well-formed sequences decode to their scalar value,
malformed bytes are dropped and decoding resumes. -/

/-- Is `b` a UTF-8 continuation byte (`0x80`–`0xBF`)? -/
def contB (b : Nat) : Bool := 128 ≤ b && b ≤ 191

/-- Second-byte restriction for 3-byte sequences (rejects overlong forms and
surrogates). -/
def utf8Valid3 (b b2 : Nat) : Bool :=
  (b != 224 || 160 ≤ b2) && (b != 237 || b2 ≤ 159)

/-- Second-byte restriction for 4-byte sequences (rejects overlong forms and
code points above U+10FFFF). -/
def utf8Valid4 (b b2 : Nat) : Bool :=
  (b != 240 || 144 ≤ b2) && (b != 244 || b2 ≤ 143)

/-- Decoder worker with fuel; every step consumes at least one input byte, so
fuel equal to the input length never runs out. -/
def decodeUtf8IgnoreF : Nat → List Nat → List Char
  | 0, _ => []
  | _ + 1, [] => []
  | n + 1, b :: rest =>
    if b < 128 then Char.ofNat b :: decodeUtf8IgnoreF n rest
    else if 194 ≤ b && b ≤ 223 then
      match rest with
      | [] => []
      | b2 :: rest2 =>
        if contB b2 then
          Char.ofNat ((b - 192) * 64 + (b2 - 128)) :: decodeUtf8IgnoreF n rest2
        else decodeUtf8IgnoreF n rest
    else if 224 ≤ b && b ≤ 239 then
      match rest with
      | b2 :: b3 :: rest3 =>
        if contB b2 && contB b3 && utf8Valid3 b b2 then
          Char.ofNat ((b - 224) * 4096 + (b2 - 128) * 64 + (b3 - 128)) ::
            decodeUtf8IgnoreF n rest3
        else decodeUtf8IgnoreF n rest
      | _ => []
    else if 240 ≤ b && b ≤ 244 then
      match rest with
      | b2 :: b3 :: b4 :: rest4 =>
        if contB b2 && contB b3 && contB b4 && utf8Valid4 b b2 then
          Char.ofNat
              ((b - 240) * 262144 + (b2 - 128) * 4096 + (b3 - 128) * 64 + (b4 - 128)) ::
            decodeUtf8IgnoreF n rest4
        else decodeUtf8IgnoreF n rest
      | _ => []
    else decodeUtf8IgnoreF n rest

/-- Model of `bytes.decode("utf-8", errors="ignore")`: decode a byte list to text,
dropping malformed bytes instead of raising. -/
def decodeUtf8Ignore (bytes : List Nat) : List Char :=
  decodeUtf8IgnoreF bytes.length bytes

/-! ## `utils.clean_text`

The five regex passes of `clean_text`, specialised to its call site: the worker
only ever applies it to single lines produced by `text.split('\n')`, so the
input contains no newline and the `re.MULTILINE` anchor `^` matches only at the
start of the string. -/

/-- Python `\s` / `str.isspace` whitespace (ASCII plus the Unicode space
characters Python treats as whitespace). -/
def isPySpace (c : Char) : Bool :=
  let n := c.toNat
  n == 32 || n == 9 || n == 10 || n == 11 || n == 12 || n == 13 ||
  n == 28 || n == 29 || n == 30 || n == 31 || n == 133 || n == 160 ||
  n == 5760 || (8192 ≤ n && n ≤ 8202) || n == 8232 || n == 8233 ||
  n == 8239 || n == 8287 || n == 12288

/-- Pass 1, `re.sub(r'^#+\s+', '', text, flags=re.MULTILINE)` on a string with
no newline: drop a leading maximal run of `#` and the following whitespace run,
provided both are non-empty. -/
def stripMdHeader (l : List Char) : List Char :=
  match l with
  | '#' :: _ =>
    let afterHash := l.dropWhile (fun c => c == '#')
    match afterHash with
    | c :: _ => if isPySpace c then afterHash.dropWhile isPySpace else l
    | [] => l
  | _ => l

/-- Try to match `([^\]]+)\]\([^\)]+\)` at the current position (just after an
opening `[`); on success return the link text and the remaining input. -/
def tryLink (rest : List Char) : Option (List Char × List Char) :=
  let txt := rest.takeWhile (fun c => c != ']')
  if txt.isEmpty then none
  else
    match rest.drop txt.length with
    | ']' :: '(' :: r2 =>
      let url := r2.takeWhile (fun c => c != ')')
      if url.isEmpty then none
      else
        match r2.drop url.length with
        | ')' :: r3 => some (txt, r3)
        | _ => none
    | _ => none

/-- Pass 2 scanner with fuel (one unit of fuel per consumed character). -/
def subLinksF : Nat → List Char → List Char
  | 0, l => l
  | _ + 1, [] => []
  | n + 1, '[' :: rest =>
    match tryLink rest with
    | some (txt, rem) => txt ++ subLinksF n rem
    | none => '[' :: subLinksF n rest
  | n + 1, c :: rest => c :: subLinksF n rest

/-- Pass 2, `re.sub(r'\[([^\]]+)\]\([^\)]+\)', r'\1', text)`: replace each
Markdown link by its text. -/
def subLinks (l : List Char) : List Char := subLinksF l.length l

/-- Pass 3, `re.sub(r'(\*\*|__|`|\*|_)', '', text)`: every occurrence of the
alternation is deleted, which removes exactly the characters `*`, `_` and
backtick (code point 96). -/
def removeEmphasis (l : List Char) : List Char :=
  l.filter (fun c => !(c == '*' || c == '_' || c.toNat == 96))

/-- Pass 4, `re.sub(r'[\x00-\x1F\x7F-\x9F]', '', text)`: remove control
characters. -/
def removeCtrl (l : List Char) : List Char :=
  l.filter (fun c => !(c.toNat ≤ 31 || (127 ≤ c.toNat && c.toNat ≤ 159)))

/-- Pass 5, `re.sub(r'\s+', ' ', text)`: collapse each maximal whitespace run
to a single space. -/
def collapseWs : List Char → List Char
  | [] => []
  | [c] => if isPySpace c then [' '] else [c]
  | c1 :: c2 :: rest =>
    if isPySpace c1 && isPySpace c2 then collapseWs (c2 :: rest)
    else (if isPySpace c1 then ' ' else c1) :: collapseWs (c2 :: rest)

/-- Python `str.strip()`. -/
def pyStrip (l : List Char) : List Char :=
  ((l.dropWhile isPySpace).reverse.dropWhile isPySpace).reverse

/-- Model of `utils.clean_text`: the five passes followed by `strip()`.  The empty
string shortcut `if not text: return ""` is the identity on `[]`. -/
def clean_text (text : List Char) : List Char :=
  pyStrip (collapseWs (removeCtrl (removeEmphasis (subLinks (stripMdHeader text)))))

/-- Model of `text.split('\n')` (worker.py line 110). -/
def splitNl : List Char → List (List Char)
  | [] => [[]]
  | c :: rest =>
    match splitNl rest with
    | [] => [[c]]
    | h :: t => if c == '\n' then [] :: h :: t else (c :: h) :: t


/-! ## Data model (`models.py`, `utils.py` constants)

`models.Job` is the SQLAlchemy row; `created_at` ordering is represented by
the position of a record in the job table list (records are only appended),
and `uuid.uuid4()` primary keys are modelled by a fresh-id counter — the only
property the code relies on is that distinct creations get distinct ids. -/

/-- Model of `models.JobStatus`. -/
inductive JobStatus
  | queued
  | processing
  | done
  | failed
deriving DecidableEq, Repr

/-- Model of `models.Job` — one row of the `jobs` table. -/
structure Job where
  job_id : Nat
  status : JobStatus
  input_checksum : String
  output_checksum : Option String
  blob_path : Option String
  chunk_count : Option Nat
  vector_dim : Option Nat
  model_id : Option String
  progress : Nat
  error_message : Option String
deriving DecidableEq, Repr

/-- Value of `utils.STORAGE_PATH` default joined with "inputs". -/
def INPUT_DIR : String := "./storage/inputs"

/-- Value of `utils.STORAGE_PATH` default joined with "outputs". -/
def OUTPUT_DIR : String := "./storage/outputs"

/-- Value of `worker.MODEL_NAME` (env `EMBEDDING_MODEL_NAME` default). -/
def MODEL_NAME : String := "BAAI/bge-m3"

/-- The whole persistent and in-memory state the code touches: the two blob
directories (content-addressed, keyed by checksum), the job table, the
in-memory `internal_task_queue`, the Celery `delay` calls, and append-only
logs of file-write events used to state at-most-once properties. -/
structure SysState where
  inputStore : List (String × List Nat)
  outputStore : List (String × List Nat)
  jobs : List Job
  queue : List Nat
  celerySends : List Nat
  nextId : Nat
  inputWriteLog : List String
  outputWriteLog : List String
deriving Repr

/-- Association-list lookup (a directory lookup / `os.path.exists` plus read). -/
def alookup {α : Type} (l : List (String × α)) (k : String) : Option α :=
  match l with
  | [] => none
  | (k2, v) :: rest => if k2 = k then some v else alookup rest k

/-- Model of `db.query(Job).filter(Job.job_id == job_id).first()`. -/
def findJob (jobs : List Job) (id : Nat) : Option Job :=
  match jobs with
  | [] => none
  | j :: rest => if j.job_id = id then some j else findJob rest id

/-- Persist an updated row for `j.job_id` (a `db.commit()` on a loaded row). -/
def commitJob (st : SysState) (j : Job) : SysState :=
  { st with jobs := st.jobs.map (fun x => if x.job_id = j.job_id then j else x) }

/-! ## `main.submit_job` (main.py lines 115–165)

The two `Bool` flags `diskOk` and `dbOk` inject the only failure sources in
the `try` body that the embedding models (the blob write and the database
commit); everything computed from the uploaded content itself is total. -/

/-- The `if not os.path.exists(input_path): write` block of `submit_job`. -/
def writeInput (diskOk : Bool) (checksum : String) (content : List Nat)
    (st : SysState) : Except String SysState :=
  if (alookup st.inputStore checksum).isSome then .ok st
  else if diskOk then
    .ok { st with
          inputStore := (checksum, content) :: st.inputStore,
          inputWriteLog := checksum :: st.inputWriteLog }
  else .error "disk write failed"

/-- Model of `main.submit_job`: checksum the content, write the input blob if absent,
create a `Queued` job row, and dispatch the id to Celery when
`REDIS_AVAILABLE and USE_CELERY` or to the internal queue otherwise. -/
def submit_job (redisAvailable useCelery diskOk dbOk : Bool)
    (content : List Nat) (st : SysState) : Except String (Job × SysState) :=
  let checksum := calculate_checksum content
  match writeInput diskOk checksum content st with
  | .error e => .error e
  | .ok st1 =>
    if dbOk then
      let job : Job :=
        { job_id := st1.nextId, status := .queued, input_checksum := checksum,
          output_checksum := none, blob_path := none, chunk_count := none,
          vector_dim := none, model_id := none, progress := 0,
          error_message := none }
      let st2 := { st1 with jobs := st1.jobs ++ [job], nextId := st1.nextId + 1 }
      let st3 :=
        if redisAvailable && useCelery then
          { st2 with celerySends := st2.celerySends ++ [job.job_id] }
        else
          { st2 with queue := st2.queue ++ [job.job_id] }
      .ok (job, st3)
    else .error "db commit failed"

/-! ## `worker.get_model` (worker.py lines 39–59)

`_model` starts as `None`; the first call attempts to construct the
`SentenceTransformer`; an `ImportError` (library missing) falls back to the
`"DUMMY"` sentinel; any other construction failure propagates to the caller
and leaves `_model` unset. -/

/-- The processor handle: either the `"DUMMY"` sentinel, or a loaded model
whose `encode` maps cleaned text units to one vector per unit (or raises). -/
inductive ModelHandle
  | dummy
  | real (encode : List (List Char) → Except String (List (List Rat)))

/-- Outcome of one `SentenceTransformer(MODEL_NAME)` construction attempt. -/
inductive BuildResult
  | success (m : ModelHandle)
  | importMissing
  | failure (e : String)

/-- Model of `worker.get_model`: returns the handle (or the raised construction error)
together with the new value of the `_model` global. -/
def get_model (build : BuildResult) (cache : Option ModelHandle) :
    Except String ModelHandle × Option ModelHandle :=
  match cache with
  | some m => (.ok m, some m)
  | none =>
    match build with
    | .success m => (.ok m, some m)
    | .importMissing => (.ok .dummy, some .dummy)
    | .failure e => (.error e, none)

/-! ## `worker.process_embedding_logic` (worker.py lines 71–153) -/

/-- The dummy embedding `[[0.1] * 768]` used when the model library is
missing. -/
def dummyEmbeddings : List (List Rat) := [List.replicate 768 ((1 : Rat) / 10)]

/-- Model of `pickle.dumps(embeddings)`, as an opaque deterministic
serialization of the vectors to bytes. -/
def pickleDumps (embs : List (List Rat)) : List Nat :=
  (String.intercalate ";"
      (embs.map (fun v =>
        String.intercalate ","
          (v.map (fun q => toString q.num ++ "/" ++ toString q.den))))).toList.map
    Char.toNat

/-- Pre-processing of worker.py lines 110–114: split into lines, clean each,
drop the empty ones, and substitute the single-space placeholder when nothing
remains. -/
def retainedUnits (text : List Char) : List (List Char) :=
  let lines1 := ((splitNl text).map clean_text).filter (fun l => !l.isEmpty)
  if lines1.isEmpty then [[' ']] else lines1

/-- Worker.py lines 123–145: the `progress = 80` commit, serialization, the
unconditional output-blob write, and the final `Done` commit. -/
def finishJob (st : SysState) (jcur : Job) (commits : List Job)
    (embeddings : List (List Rat)) (vdim ccount : Nat) : SysState × List Job :=
  let job5 : Job := { jcur with progress := 80 }
  let output_data := pickleDumps embeddings
  let chk := calculate_checksum output_data
  let output_path := OUTPUT_DIR ++ "/" ++ chk ++ ".blob"
  let st1 := { st with
               outputStore := (chk, output_data) :: st.outputStore,
               outputWriteLog := chk :: st.outputWriteLog }
  let jd : Job := { job5 with
                    status := .done, progress := 100,
                    output_checksum := some chk, blob_path := some output_path,
                    vector_dim := some vdim, chunk_count := some ccount,
                    model_id := some MODEL_NAME }
  (commitJob st1 jd, commits ++ [job5, jd])

/-- Model of `worker.process_embedding_logic`.  `mo` is the outcome of the `get_model()`
call (worker.py line 99).  Returns the final state together with the list of
job-row snapshots persisted by the successive `db.commit()` calls, in order.
The `except` block (lines 147–151) turns any raised error into a `Failed`
commit that leaves all other fields of the in-memory row as they were. -/
def process_embedding_logic (mo : Except String ModelHandle) (st : SysState)
    (jobId : Nat) : SysState × List Job :=
  match findJob st.jobs jobId with
  | none => (st, [])
  | some job0 =>
    let job1 : Job := { job0 with status := .processing, progress := 10 }
    match alookup st.inputStore job1.input_checksum with
    | none =>
      let jf : Job := { job1 with
                        status := .failed,
                        error_message := some ("Input file not found: " ++ INPUT_DIR
                          ++ "/" ++ job1.input_checksum ++ ".bin") }
      (commitJob st jf, [job1, jf])
    | some content =>
      let job2 : Job := { job1 with progress := 20 }
      let text := decodeUtf8Ignore content
      match mo with
      | .error e =>
        let jf : Job := { job2 with status := .failed, error_message := some e }
        (commitJob st jf, [job1, job2, jf])
      | .ok m =>
        let job3 : Job := { job2 with progress := 30 }
        match m with
        | .dummy => finishJob st job3 [job1, job2, job3] dummyEmbeddings 768 1
        | .real encode =>
          let lines := retainedUnits text
          let job4 : Job := { job3 with progress := 40 }
          match encode lines with
          | .error e =>
            let jf : Job := { job4 with status := .failed, error_message := some e }
            (commitJob st jf, [job1, job2, job3, job4, jf])
          | .ok embs =>
            match embs with
            | [] =>
              let jf : Job := { job4 with
                                status := .failed,
                                error_message := some "IndexError: list index out of range" }
              (commitJob st jf, [job1, job2, job3, job4, jf])
            | v :: _ => finishJob st job4 [job1, job2, job3, job4] embs v.length embs.length

/-! ## Startup policy and recovery (main.py lines 27–59, 143–151) -/

/-- The two inputs of the startup policy: the `USE_CELERY` env flag and the
outcome of the Redis connectivity probe (lines 41–51). -/
structure StartupConfig where
  useCelery : Bool
  redisAvailable : Bool
deriving DecidableEq, Repr

/-- Line 146: Celery is used for a submission iff the probe succeeded and the
flag is set. -/
def dispatchUsesCelery (cfg : StartupConfig) : Bool :=
  cfg.redisAvailable && cfg.useCelery

/-- Lines 54–57: the internal worker thread is started iff `USE_CELERY` is
unset. -/
def internalWorkerStarted (cfg : StartupConfig) : Bool := !cfg.useCelery

/-- Model of `main.recover_pending_jobs`: scan the job table and enqueue the id of every
`Queued` record, in table order; the returned list is the sequence of
`internal_task_queue.put` events. -/
def recover_pending_jobs (jobs : List Job) : List Nat :=
  ((jobs.filter (fun j => j.status = JobStatus.queued)).map (fun j => j.job_id))

/-- Lines 54–57: recovery runs only in stand-alone mode (`not USE_CELERY`). -/
def startupEnqueues (cfg : StartupConfig) (jobs : List Job) : List Nat :=
  if cfg.useCelery then [] else recover_pending_jobs jobs

/-! ## Observations used by the claims -/

/-- A job row exactly as `submit_job` creates it: `Queued`, `progress 0`, no
result fields, no error. -/
def SubmittedShape (j : Job) : Prop :=
  j.status = .queued ∧ j.progress = 0 ∧ j.output_checksum = none ∧
  j.blob_path = none ∧ j.vector_dim = none ∧ j.chunk_count = none ∧
  j.model_id = none ∧ j.error_message = none

instance (j : Job) : Decidable (SubmittedShape j) := by
  unfold SubmittedShape; infer_instance

/-- Adjacency check for a list, as a boolean. -/
def chainB {α : Type} (R : α → α → Bool) : List α → Bool
  | [] => true
  | [_] => true
  | a :: b :: rest => R a b && chainB R (b :: rest)

/-- The legal status edges: stay put, `Queued → Processing`, or
`Processing → {Done, Failed}`. -/
def statusStepB (a b : JobStatus) : Bool :=
  match a, b with
  | .queued, .processing => true
  | .processing, .done => true
  | .processing, .failed => true
  | x, y => x = y

/-- One persisted step of a job row: progress never decreases, and a write
that moves the row to `Failed` keeps the previous progress value. -/
def progStepB (a b : Job) : Bool :=
  (a.progress ≤ b.progress) && (if b.status = .failed then b.progress = a.progress else true)

/-- Terminal-shape soundness of one persisted row: a `Done` row has every
result field populated, a `Failed` row has an error message and no result
field. -/
def terminalShapeOk (j : Job) : Bool :=
  match j.status with
  | .done =>
    j.output_checksum.isSome && j.blob_path.isSome && j.vector_dim.isSome &&
    j.chunk_count.isSome && j.model_id.isSome
  | .failed =>
    j.error_message.isSome && j.output_checksum.isNone && j.blob_path.isNone &&
    j.vector_dim.isNone && j.chunk_count.isNone && j.model_id.isNone
  | _ => true

/-- The observable fields of the last persisted row of a run:
status, progress, output_checksum, blob_path, vector_dim, chunk_count,
model_id, error_message. -/
def finalRecordView (t : List Job) :
    Option (JobStatus × Nat × Option String × Option String × Option Nat ×
      Option Nat × Option String × Option String) :=
  (t.getLast?).map (fun j =>
    (j.status, j.progress, j.output_checksum, j.blob_path, j.vector_dim,
     j.chunk_count, j.model_id, j.error_message))

/-- A small concrete state used by witnesses: one queued job whose input blob
is stored under the literal key "k". -/
def jW : Job :=
  { job_id := 0, status := .queued, input_checksum := "k",
    output_checksum := none, blob_path := none, chunk_count := none,
    vector_dim := none, model_id := none, progress := 0, error_message := none }

/-- Witness state: job `jW` queued, its input blob `"a"` (byte 97) present. -/
def stW : SysState :=
  { inputStore := [("k", [97])], outputStore := [], jobs := [jW],
    queue := [0], celerySends := [], nextId := 1,
    inputWriteLog := ["k"], outputWriteLog := [] }

/-- Witness state with a three-line input blob `"a\nb"`. -/
def stW2 : SysState :=
  { inputStore := [("k", [97, 10, 98])], outputStore := [], jobs := [jW],
    queue := [0], celerySends := [], nextId := 1,
    inputWriteLog := ["k"], outputWriteLog := [] }

/-- Witness state whose input blob contains only blank lines (`"\n\n"`). -/
def stW3 : SysState :=
  { inputStore := [("k", [10, 10])], outputStore := [], jobs := [jW],
    queue := [0], celerySends := [], nextId := 1,
    inputWriteLog := ["k"], outputWriteLog := [] }

/-- A four-record job table, one record per status, used by the recovery
witness. -/
def jobsC5 : List Job :=
  [{ jW with job_id := 1, status := .queued },
   { jW with job_id := 2, status := .processing },
   { jW with job_id := 3, status := .done },
   { jW with job_id := 4, status := .failed }]

/-- The empty state. -/
def st0 : SysState :=
  { inputStore := [], outputStore := [], jobs := [], queue := [],
    celerySends := [], nextId := 0, inputWriteLog := [], outputWriteLog := [] }

/-- Serialized dummy result and its checksum (what a dummy-mode success
writes to the output store). -/
def dummyOut : List Nat := pickleDumps dummyEmbeddings

/-- Checksum key of the dummy-mode output blob. -/
def dummyOutChk : String := calculate_checksum dummyOut

/-- State in which the dummy-mode output blob is already present in the
output store before the job runs. -/
def stC3 : SysState :=
  { inputStore := [("k", [97])], outputStore := [(dummyOutChk, dummyOut)],
    jobs := [jW], queue := [0], celerySends := [], nextId := 1,
    inputWriteLog := ["k"], outputWriteLog := [dummyOutChk] }

/-- A contract-abiding test processor: one 1-dimensional vector per unit. -/
def encW : List (List Char) → Except String (List (List Rat)) :=
  fun l => .ok (l.map (fun _ => [(0 : Rat)]))

/-- A processor whose invocation raises an error with empty text. -/
def encFailEmpty : List (List Char) → Except String (List (List Rat)) :=
  fun _ => .error ""


/-! ## Helper lemmas about worker runs -/

/-- Pre-processing never hands the processor an empty unit list. -/
lemma retainedUnits_ne_nil (t : List Char) : retainedUnits t ≠ [] := by
  unfold retainedUnits
  dsimp only
  split
  · simp
  · next h => simpa [List.isEmpty_iff] using h

/-- Full characterisation of `submit_job` when disk and database are healthy:
it always succeeds, creates the as-submitted row, dedups the input blob write,
and routes the id to Celery or the internal queue by the startup policy. -/
lemma submit_job_ok (rA uC : Bool) (c : List Nat) (st : SysState) :
    ∃ j st', submit_job rA uC true true c st = .ok (j, st') ∧
      SubmittedShape j ∧ j.job_id = st.nextId ∧
      j.input_checksum = calculate_checksum c ∧
      st'.nextId = st.nextId + 1 ∧ st'.jobs = st.jobs ++ [j] ∧
      st'.inputStore = (if (alookup st.inputStore (calculate_checksum c)).isSome
        then st.inputStore else (calculate_checksum c, c) :: st.inputStore) ∧
      st'.inputWriteLog = (if (alookup st.inputStore (calculate_checksum c)).isSome
        then st.inputWriteLog else calculate_checksum c :: st.inputWriteLog) ∧
      (if rA && uC
        then st'.celerySends = st.celerySends ++ [j.job_id] ∧ st'.queue = st.queue
        else st'.queue = st.queue ++ [j.job_id] ∧ st'.celerySends = st.celerySends) := by
  unfold submit_job writeInput
  by_cases hp : (alookup st.inputStore (calculate_checksum c)).isSome <;>
    by_cases hcel : (rA && uC) = true <;>
      simp only [hp, hcel, if_true, if_false, Bool.not_eq_true, ite_true, ite_false] <;>
      exact ⟨_, _, rfl, by constructor <;> simp [SubmittedShape]⟩

/-- Every run of the worker, from a row still in its as-created shape,
satisfies the three per-claim invariants: the persisted status sequence only
follows the legal edges, every persisted row is terminal-shape sound, and the
persisted progress sequence is non-decreasing with failures keeping the last
value. -/
lemma worker_run_invariants (mo : Except String ModelHandle) (st : SysState)
    (jobId : Nat) (j0 : Job) (h1 : findJob st.jobs jobId = some j0)
    (h2 : SubmittedShape j0) :
    chainB statusStepB
        (JobStatus.queued ::
          (process_embedding_logic mo st jobId).2.map (fun j => j.status)) = true
    ∧ (process_embedding_logic mo st jobId).2.all terminalShapeOk = true
    ∧ chainB progStepB (j0 :: (process_embedding_logic mo st jobId).2) = true := by
  obtain ⟨hs, hp, hoc, hbp, hvd, hcc, hmi, hem⟩ := h2
  unfold process_embedding_logic
  rw [h1]
  dsimp only
  cases hl : alookup st.inputStore j0.input_checksum with
  | none =>
    simp [chainB, statusStepB, progStepB, terminalShapeOk, hp, hoc, hbp, hvd, hcc, hmi]
  | some content =>
    dsimp only
    cases mo with
    | error e =>
      simp [chainB, statusStepB, progStepB, terminalShapeOk, hp, hoc, hbp, hvd, hcc, hmi]
    | ok m =>
      cases m with
      | dummy =>
        simp [finishJob, chainB, statusStepB, progStepB, terminalShapeOk, hp]
      | real enc =>
        dsimp only
        cases he : enc (retainedUnits (decodeUtf8Ignore content)) with
        | error e =>
          simp [chainB, statusStepB, progStepB, terminalShapeOk, hp, hoc, hbp, hvd, hcc, hmi]
        | ok embs =>
          cases embs with
          | nil =>
            simp [chainB, statusStepB, progStepB, terminalShapeOk, hp, hoc, hbp, hvd,
              hcc, hmi]
          | cons v vrest =>
            simp [finishJob, chainB, statusStepB, progStepB, terminalShapeOk, hp]

/-- Full characterisation of a successful real-model run: the commit trace,
the final record, and the unconditional output-blob write. -/
lemma real_success_run (st : SysState) (jobId : Nat) (j0 : Job) (content : List Nat)
    (enc : List (List Char) → Except String (List (List Rat)))
    (embs : List (List Rat)) (v : List Rat) (vrest : List (List Rat))
    (h1 : findJob st.jobs jobId = some j0)
    (hc : alookup st.inputStore j0.input_checksum = some content)
    (he : enc (retainedUnits (decodeUtf8Ignore content)) = .ok embs)
    (hv : embs = v :: vrest) :
    finalRecordView (process_embedding_logic (.ok (.real enc)) st jobId).2 =
      some (.done, 100, some (calculate_checksum (pickleDumps embs)),
        some (OUTPUT_DIR ++ "/" ++ calculate_checksum (pickleDumps embs) ++ ".blob"),
        some v.length, some embs.length, some MODEL_NAME, j0.error_message)
    ∧ (process_embedding_logic (.ok (.real enc)) st jobId).2.map (fun j => j.progress) =
        [10, 20, 30, 40, 80, 100]
    ∧ alookup (process_embedding_logic (.ok (.real enc)) st jobId).1.outputStore
        (calculate_checksum (pickleDumps embs)) = some (pickleDumps embs)
    ∧ (process_embedding_logic (.ok (.real enc)) st jobId).1.outputWriteLog =
        calculate_checksum (pickleDumps embs) :: st.outputWriteLog := by
  subst hv
  unfold process_embedding_logic
  rw [h1]
  dsimp only
  rw [hc]
  dsimp only
  rw [he]
  dsimp only [finishJob, finalRecordView, commitJob]
  simp [alookup]

/-- Full characterisation of a dummy-mode success run. -/
lemma dummy_success_run (st : SysState) (jobId : Nat) (j0 : Job) (content : List Nat)
    (h1 : findJob st.jobs jobId = some j0)
    (hc : alookup st.inputStore j0.input_checksum = some content) :
    finalRecordView (process_embedding_logic (.ok .dummy) st jobId).2 =
      some (.done, 100, some dummyOutChk,
        some (OUTPUT_DIR ++ "/" ++ dummyOutChk ++ ".blob"),
        some 768, some 1, some MODEL_NAME, j0.error_message)
    ∧ (process_embedding_logic (.ok .dummy) st jobId).2.map (fun j => j.progress) =
        [10, 20, 30, 80, 100]
    ∧ alookup (process_embedding_logic (.ok .dummy) st jobId).1.outputStore
        dummyOutChk = some dummyOut
    ∧ (process_embedding_logic (.ok .dummy) st jobId).1.outputWriteLog =
        dummyOutChk :: st.outputWriteLog := by
  unfold process_embedding_logic
  rw [h1]
  dsimp only
  rw [hc]
  dsimp only [finishJob, finalRecordView, commitJob, dummyOutChk, dummyOut]
  simp [alookup]

/-! ## Claims -/

/-- C1: a job is created `Queued` by submission; during a worker run on a job
still in its as-created state, every persisted status write follows only the
edges `Queued → Processing → {Done | Failed}` (the worker commits `Processing`
before any terminal write, nothing skips `Queued`, and a terminal status is
never followed by a write with an earlier status). -/
theorem c1_status_transitions (mo : Except String ModelHandle) (st : SysState)
    (jobId : Nat) (j0 : Job) (rA uC : Bool) (c : List Nat) (st2 : SysState)
    (h1 : findJob st.jobs jobId = some j0) (h2 : SubmittedShape j0) :
    (∃ j st', submit_job rA uC true true c st2 = .ok (j, st') ∧ j.status = .queued)
    ∧ chainB statusStepB
        (JobStatus.queued ::
          (process_embedding_logic mo st jobId).2.map (fun j => j.status)) = true := by
  constructor
  · obtain ⟨j, st', he, hsh, _⟩ := submit_job_ok rA uC c st2
    exact ⟨j, st', he, hsh.1⟩
  · exact (worker_run_invariants mo st jobId j0 h1 h2).1

/-- C1 witness: the status-machine theorem applied to a concrete queued job
processed in dummy mode. -/
theorem c1_status_transitions_witness :
    (∃ j st', submit_job false false true true [] st0 = .ok (j, st') ∧ j.status = .queued)
    ∧ chainB statusStepB
        (JobStatus.queued ::
          (process_embedding_logic (.ok .dummy) stW 0).2.map (fun j => j.status)) = true :=
  c1_status_transitions (.ok .dummy) stW 0 jW false false [] st0 (by decide) (by decide)

/-- C2 (amended): every persisted terminal write is all-or-nothing: a `Done`
row has all of `output_checksum`, `blob_path`, `vector_dim`, `chunk_count`,
`model_id` populated; a `Failed` row has `error_message` set — to the raised
error text verbatim, which may be the empty string when the processor raises
an empty-text error — and none of the result fields populated.  No partially
populated terminal row is ever committed. -/
theorem c2_terminal_shapes (mo : Except String ModelHandle) (st : SysState)
    (jobId : Nat) (j0 : Job) (h1 : findJob st.jobs jobId = some j0)
    (h2 : SubmittedShape j0) :
    (process_embedding_logic mo st jobId).2.all terminalShapeOk = true :=
  (worker_run_invariants mo st jobId j0 h1 h2).2.1

/-- C2 witness: the terminal-shape theorem applied to a concrete run that
fails with a missing model. -/
theorem c2_terminal_shapes_witness :
    (process_embedding_logic (.error "model load failed") stW 0).2.all terminalShapeOk = true :=
  c2_terminal_shapes (.error "model load failed") stW 0 jW (by decide) (by decide)

/-- C2 counterexample to the claim as stated: the processor can raise an
error whose text is empty (`str(e) == ""` in Python), and the worker then
persists a `Failed` row whose `error_message` is the empty string — the
record is `Failed` with `error_message` set but *not* non-empty. -/
theorem c2_empty_error_counterexample :
    finalRecordView (process_embedding_logic (.ok (.real encFailEmpty)) stW 0).2 =
      some (.failed, 40, none, none, none, none, none, some "")
    ∧ String.length "" = 0 := by
  constructor
  · rfl
  · rfl

/-- C8: for every worker run on an as-created job row, the persisted progress
sequence is non-decreasing and a failure write keeps the progress value of the
previous commit; on a successful real-model run the full persisted sequence,
starting from the 0 written at creation, is exactly 0, 10, 20, 30, 40, 80,
100. -/
theorem c8_progress_monotone (mo : Except String ModelHandle) (st st2 : SysState)
    (jobId jobId2 : Nat) (j0 j0b : Job) (content : List Nat)
    (enc : List (List Char) → Except String (List (List Rat)))
    (embs : List (List Rat)) (v : List Rat) (vrest : List (List Rat))
    (h1 : findJob st.jobs jobId = some j0) (h2 : SubmittedShape j0)
    (h1b : findJob st2.jobs jobId2 = some j0b) (h2b : SubmittedShape j0b)
    (hcb : alookup st2.inputStore j0b.input_checksum = some content)
    (heb : enc (retainedUnits (decodeUtf8Ignore content)) = .ok embs)
    (hvb : embs = v :: vrest) :
    chainB progStepB (j0 :: (process_embedding_logic mo st jobId).2) = true
    ∧ j0b.progress ::
        (process_embedding_logic (.ok (.real enc)) st2 jobId2).2.map (fun j => j.progress) =
        [0, 10, 20, 30, 40, 80, 100] := by
  constructor
  · exact (worker_run_invariants mo st jobId j0 h1 h2).2.2
  · rw [(real_success_run st2 jobId2 j0b content enc embs v vrest h1b hcb heb hvb).2.1, h2b.2.1]

/-- C8 witness: a concrete dummy-mode run for the chain property and a
concrete two-line real-model run for the exact success sequence. -/
theorem c8_progress_monotone_witness :
    chainB progStepB (jW :: (process_embedding_logic (.ok .dummy) stW 0).2) = true
    ∧ jW.progress ::
        (process_embedding_logic (.ok (.real encW)) stW2 0).2.map (fun j => j.progress) =
        [0, 10, 20, 30, 40, 80, 100] :=
  c8_progress_monotone (.ok .dummy) stW stW2 0 0 jW jW [97, 10, 98] encW
    [[0], [0]] [0] [[0]] (by decide) (by decide) (by decide) (by decide)
    (by decide) rfl rfl

/-- C6 (amended): on the real-model path, when the processor meets its
contract (one vector per retained unit, fixed positive dimension), a job that
reaches `Done` has `blob_path` set, `output_checksum` equal to the checksum of
the exact bytes written to the output store, `vector_dim = d > 0` and
`chunk_count` equal to the number of retained text units.  On the dummy
fallback path (model library missing), a `Done` record instead always has
`vector_dim = 768` and `chunk_count = 1`, regardless of the retained units. -/
theorem c6_done_record_fields (st st2 : SysState) (jobId jobId2 : Nat)
    (j0 j0b : Job) (content content2 : List Nat) (d : Nat)
    (enc : List (List Char) → Except String (List (List Rat)))
    (embs : List (List Rat))
    (h1 : findJob st.jobs jobId = some j0) (h2 : SubmittedShape j0)
    (hc : alookup st.inputStore j0.input_checksum = some content)
    (he : enc (retainedUnits (decodeUtf8Ignore content)) = .ok embs)
    (hlen : embs.length = (retainedUnits (decodeUtf8Ignore content)).length)
    (hdim : ∀ w ∈ embs, w.length = d) (hd : 0 < d)
    (h1b : findJob st2.jobs jobId2 = some j0b) (h2b : SubmittedShape j0b)
    (hcb : alookup st2.inputStore j0b.input_checksum = some content2) :
    (finalRecordView (process_embedding_logic (.ok (.real enc)) st jobId).2 =
        some (.done, 100, some (calculate_checksum (pickleDumps embs)),
          some (OUTPUT_DIR ++ "/" ++ calculate_checksum (pickleDumps embs) ++ ".blob"),
          some d, some (retainedUnits (decodeUtf8Ignore content)).length,
          some MODEL_NAME, none)
      ∧ alookup (process_embedding_logic (.ok (.real enc)) st jobId).1.outputStore
          (calculate_checksum (pickleDumps embs)) = some (pickleDumps embs)
      ∧ 0 < d)
    ∧ finalRecordView (process_embedding_logic (.ok .dummy) st2 jobId2).2 =
        some (.done, 100, some dummyOutChk,
          some (OUTPUT_DIR ++ "/" ++ dummyOutChk ++ ".blob"),
          some 768, some 1, some MODEL_NAME, none) := by
  constructor
  · have hne : retainedUnits (decodeUtf8Ignore content) ≠ [] :=
      retainedUnits_ne_nil (decodeUtf8Ignore content)
    cases embs with
    | nil =>
      exact absurd (List.eq_nil_of_length_eq_zero hlen.symm) hne
    | cons v vrest =>
      have hr := real_success_run st jobId j0 content enc (v :: vrest) v vrest h1 hc he rfl
      refine ⟨?_, ?_, hd⟩
      · rw [hr.1, h2.2.2.2.2.2.2.2]
        have hv : v.length = d := hdim v (List.mem_cons_self v vrest)
        rw [hv, hlen]
      · exact hr.2.2.1
  · rw [(dummy_success_run st2 jobId2 j0b content2 h1b hcb).1, h2b.2.2.2.2.2.2.2]

/-- C6 witness: a one-line document processed by a contract-abiding model of
dimension 1, and a dummy-mode run. -/
theorem c6_done_record_fields_witness :
    (finalRecordView (process_embedding_logic (.ok (.real encW)) stW 0).2 =
        some (.done, 100, some (calculate_checksum (pickleDumps [[0]])),
          some (OUTPUT_DIR ++ "/" ++ calculate_checksum (pickleDumps [[0]]) ++ ".blob"),
          some 1, some (retainedUnits (decodeUtf8Ignore [97])).length,
          some MODEL_NAME, none)
      ∧ alookup (process_embedding_logic (.ok (.real encW)) stW 0).1.outputStore
          (calculate_checksum (pickleDumps [[0]])) = some (pickleDumps [[0]])
      ∧ 0 < 1)
    ∧ finalRecordView (process_embedding_logic (.ok .dummy) stW2 0).2 =
        some (.done, 100, some dummyOutChk,
          some (OUTPUT_DIR ++ "/" ++ dummyOutChk ++ ".blob"),
          some 768, some 1, some MODEL_NAME, none) :=
  c6_done_record_fields stW stW2 0 0 jW jW [97] [97, 10, 98] 1 encW [[0]]
    (by decide) (by decide) (by decide) rfl (by decide)
    (by intro w hw; rw [List.mem_singleton.mp hw]; rfl) (by decide)
    (by decide) (by decide) (by decide)

/-- C6 counterexample to the claim as stated: with the dummy fallback
processor (the real library missing), the document `"a\nb"` has two retained
text units, yet the job reaches `Done` with `chunk_count = 1`. -/
theorem c6_dummy_chunk_counterexample :
    finalRecordView (process_embedding_logic (.ok .dummy) stW2 0).2 =
      some (.done, 100, some dummyOutChk,
        some (OUTPUT_DIR ++ "/" ++ dummyOutChk ++ ".blob"),
        some 768, some 1, some MODEL_NAME, none)
    ∧ (retainedUnits (decodeUtf8Ignore [97, 10, 98])).length = 2
    ∧ (1 : Nat) ≠ 2 := by
  refine ⟨?_, by decide, by decide⟩
  rw [(dummy_success_run stW2 0 jW [97, 10, 98] (by decide) (by decide)).1]
  rfl

/-- C7: when pre-processing discards every unit of the decoded text (all
lines clean to the empty string), the worker substitutes exactly the single
whitespace placeholder unit `[" "]`, the processor is invoked on it, and —
the processor succeeding with its one vector per unit — the job completes
`Done` with `chunk_count = 1` instead of failing. -/
theorem c7_placeholder_unit (st : SysState) (jobId : Nat) (j0 : Job)
    (content : List Nat) (v : List Rat)
    (enc : List (List Char) → Except String (List (List Rat)))
    (h1 : findJob st.jobs jobId = some j0) (h2 : SubmittedShape j0)
    (hc : alookup st.inputStore j0.input_checksum = some content)
    (hempty : ((splitNl (decodeUtf8Ignore content)).map clean_text).filter
        (fun l => !l.isEmpty) = [])
    (he : enc [[' ']] = .ok [v]) :
    retainedUnits (decodeUtf8Ignore content) = [[' ']]
    ∧ finalRecordView (process_embedding_logic (.ok (.real enc)) st jobId).2 =
        some (.done, 100, some (calculate_checksum (pickleDumps [v])),
          some (OUTPUT_DIR ++ "/" ++ calculate_checksum (pickleDumps [v]) ++ ".blob"),
          some v.length, some 1, some MODEL_NAME, none) := by
  have hunits : retainedUnits (decodeUtf8Ignore content) = [[' ']] := by
    unfold retainedUnits
    rw [hempty]
    rfl
  refine ⟨hunits, ?_⟩
  have hr := real_success_run st jobId j0 content enc [v] v [] h1 hc
    (by rw [hunits]; exact he) rfl
  rw [hr.1, h2.2.2.2.2.2.2.2]
  rfl

/-- C7 witness: the document `"\n\n"` (only blank lines) run against a
contract-abiding model: one placeholder unit, `Done`, `chunk_count = 1`. -/
theorem c7_placeholder_unit_witness :
    retainedUnits (decodeUtf8Ignore [10, 10]) = [[' ']]
    ∧ finalRecordView (process_embedding_logic (.ok (.real encW)) stW3 0).2 =
        some (.done, 100, some (calculate_checksum (pickleDumps [[0]])),
          some (OUTPUT_DIR ++ "/" ++ calculate_checksum (pickleDumps [[0]]) ++ ".blob"),
          some 1, some 1, some MODEL_NAME, none) :=
  c7_placeholder_unit stW3 0 jW [10, 10] [0] encW
    (by decide) (by decide) (by decide) (by decide) rfl

/-- C3 (amended): submitting identical bytes twice yields two distinct job
ids with the same `input_checksum`, and the input blob write is skipped when
the key is already stored — at most one input write per checksum.  On job
success, however, the worker writes the output blob *unconditionally*: each
successful run appends a write event under the output checksum even when a
blob with that checksum is already present (the bytes being identical, the
stored content is unchanged, but the write is not skipped). -/
theorem c3_blob_dedup (c : List Nat) (st : SysState) (rA uC rA2 uC2 : Bool)
    (stw : SysState) (jobId : Nat) (j0 : Job) (content : List Nat)
    (hw1 : findJob stw.jobs jobId = some j0)
    (hw2 : alookup stw.inputStore j0.input_checksum = some content) :
    (∃ j1 st1 j2 st2,
      submit_job rA uC true true c st = .ok (j1, st1) ∧
      submit_job rA2 uC2 true true c st1 = .ok (j2, st2) ∧
      j1.job_id ≠ j2.job_id ∧ j1.input_checksum = j2.input_checksum ∧
      st2.inputWriteLog.count (calculate_checksum c) =
        st.inputWriteLog.count (calculate_checksum c) +
          (if (alookup st.inputStore (calculate_checksum c)).isSome then 0 else 1))
    ∧ (process_embedding_logic (.ok .dummy) stw jobId).1.outputWriteLog =
        dummyOutChk :: stw.outputWriteLog := by
  constructor
  · obtain ⟨j1, st1, he1, hsh1, hid1, hchk1, hnext1, _, hstore1, hlog1, _⟩ :=
      submit_job_ok rA uC c st
    obtain ⟨j2, st2, he2, hsh2, hid2, hchk2, _, _, _, hlog2, _⟩ :=
      submit_job_ok rA2 uC2 c st1
    refine ⟨j1, st1, j2, st2, he1, he2, ?_, ?_, ?_⟩
    · rw [hid1, hid2, hnext1]
      omega
    · rw [hchk1, hchk2]
    · by_cases hp : (alookup st.inputStore (calculate_checksum c)).isSome
      · have hsame : st1.inputStore = st.inputStore := by rw [hstore1, if_pos hp]
        rw [hlog2, hsame, if_pos hp, hlog1, if_pos hp, if_pos hp]
        omega
      · have hnow : (alookup st1.inputStore (calculate_checksum c)).isSome := by
          rw [hstore1, if_neg hp]
          simp [alookup]
        rw [hlog2, if_pos hnow, hlog1, if_neg hp, if_neg hp]
        simp [List.count_cons]
  · exact (dummy_success_run stw jobId j0 content hw1 hw2).2.2.2

/-- C3 witness: two fresh submissions of the byte `"a"`, and a dummy-mode
success run appending its output-write event. -/
theorem c3_blob_dedup_witness :
    (∃ j1 st1 j2 st2,
      submit_job false false true true [97] st0 = .ok (j1, st1) ∧
      submit_job false false true true [97] st1 = .ok (j2, st2) ∧
      j1.job_id ≠ j2.job_id ∧ j1.input_checksum = j2.input_checksum ∧
      st2.inputWriteLog.count (calculate_checksum [97]) =
        st0.inputWriteLog.count (calculate_checksum [97]) +
          (if (alookup st0.inputStore (calculate_checksum [97])).isSome then 0 else 1))
    ∧ (process_embedding_logic (.ok .dummy) stW 0).1.outputWriteLog =
        dummyOutChk :: stW.outputWriteLog :=
  c3_blob_dedup [97] st0 false false false false stW 0 jW [97]
    (by decide) (by decide)

/-- C3 counterexample to the claim as stated: the output blob is *not*
written "only if not already present".  Starting from a state whose output
store already holds the dummy-result blob under its checksum, a successful
dummy-mode run still appends a write event for that same key. -/
theorem c3_output_write_counterexample :
    (alookup stC3.outputStore dummyOutChk).isSome = true
    ∧ (process_embedding_logic (.ok .dummy) stC3 0).1.outputWriteLog =
        dummyOutChk :: stC3.outputWriteLog := by
  constructor
  · simp [stC3, alookup]
  · exact (dummy_success_run stC3 0 jW [97] (by decide) (by decide)).2.2.2

/-- C4 (amended): the Broker (Celery) path is taken for a submission if and
only if both the Redis connectivity probe succeeded and the `USE_CELERY` flag
is set; in every other configuration submissions are enqueued on the
in-memory internal queue.  The internal worker thread, however, is started if
and only if the flag is unset — so in the configuration "flag set, probe
failed" jobs are enqueued internally with no running worker thread to consume
them. -/
theorem c4_backend_selection (cfg : StartupConfig) (c : List Nat) (st : SysState) :
    (dispatchUsesCelery cfg = true ↔ cfg.redisAvailable = true ∧ cfg.useCelery = true)
    ∧ (internalWorkerStarted cfg = true ↔ cfg.useCelery = false)
    ∧ (∃ j st', submit_job cfg.redisAvailable cfg.useCelery true true c st = .ok (j, st') ∧
        (if dispatchUsesCelery cfg
          then st'.celerySends = st.celerySends ++ [j.job_id] ∧ st'.queue = st.queue
          else st'.queue = st.queue ++ [j.job_id] ∧ st'.celerySends = st.celerySends)) := by
  refine ⟨?_, ?_, ?_⟩
  · unfold dispatchUsesCelery
    cases cfg.redisAvailable <;> cases cfg.useCelery <;> simp
  · unfold internalWorkerStarted
    cases cfg.useCelery <;> simp
  · obtain ⟨j, st', he, _, _, _, _, _, _, _, hroute⟩ :=
      submit_job_ok cfg.redisAvailable cfg.useCelery c st
    exact ⟨j, st', he, hroute⟩

/-- C4 counterexample to the claim as stated: with `USE_CELERY` set but the
Redis probe failing, the Broker backend is not used, yet the internal worker
thread is not started either — submissions are enqueued on the in-memory queue
with no consumer, contradicting "a running worker thread consumes them". -/
theorem c4_no_worker_counterexample :
    dispatchUsesCelery { useCelery := true, redisAvailable := false } = false
    ∧ internalWorkerStarted { useCelery := true, redisAvailable := false } = false := by
  decide

/-- C5: in stand-alone mode (`USE_CELERY` unset) startup recovery re-enqueues
exactly the `Queued` records: the enqueue events are one per queued record, in
the job table's creation order (a sublist of the table order), every queued
record's id appears exactly once, and no `Processing`, `Done` or `Failed`
record is ever re-enqueued. -/
theorem c5_recovery_requeues_queued (cfg : StartupConfig) (jobs : List Job)
    (h : cfg.useCelery = false)
    (hid : (jobs.map (fun j => j.job_id)).Nodup) :
    startupEnqueues cfg jobs = recover_pending_jobs jobs
    ∧ (recover_pending_jobs jobs).length =
        (jobs.filter (fun j => j.status = JobStatus.queued)).length
    ∧ List.Sublist (recover_pending_jobs jobs) (jobs.map (fun j => j.job_id))
    ∧ (∀ j ∈ jobs, j.status = .queued →
        (recover_pending_jobs jobs).count j.job_id = 1)
    ∧ (∀ j ∈ jobs, j.status ≠ .queued → j.job_id ∉ recover_pending_jobs jobs) := by
  have hsub : List.Sublist (recover_pending_jobs jobs) (jobs.map (fun j => j.job_id)) := by
    unfold recover_pending_jobs
    exact List.Sublist.map (fun j => j.job_id) (List.filter_sublist jobs)
  have hnodup : (recover_pending_jobs jobs).Nodup := hid.sublist hsub
  refine ⟨by simp [startupEnqueues, h], by simp [recover_pending_jobs], hsub, ?_, ?_⟩
  · intro j hj hq
    have hmem : j.job_id ∈ recover_pending_jobs jobs := by
      unfold recover_pending_jobs
      exact List.mem_map_of_mem _ (List.mem_filter.mpr ⟨hj, by simp [hq]⟩)
    exact List.count_eq_one_of_mem hnodup hmem
  · intro j hj hq hmem
    unfold recover_pending_jobs at hmem
    obtain ⟨j2, hj2, hjid⟩ := List.mem_map.mp hmem
    have hj2mem : j2 ∈ jobs := (List.mem_filter.mp hj2).1
    have hj2q : j2.status = JobStatus.queued := by
      have := (List.mem_filter.mp hj2).2
      simpa using this
    have : j2 = j := List.inj_on_of_nodup_map hid hj2mem hj hjid
    exact hq (this ▸ hj2q)

/-- C5 witness: a four-record table, one per status, with only the queued
record re-enqueued. -/
theorem c5_recovery_requeues_queued_witness :
    startupEnqueues { useCelery := false, redisAvailable := false } jobsC5 =
        recover_pending_jobs jobsC5
    ∧ (recover_pending_jobs jobsC5).length =
        (jobsC5.filter (fun j => j.status = JobStatus.queued)).length
    ∧ List.Sublist (recover_pending_jobs jobsC5) (jobsC5.map (fun j => j.job_id))
    ∧ (∀ j ∈ jobsC5, j.status = .queued →
        (recover_pending_jobs jobsC5).count j.job_id = 1)
    ∧ (∀ j ∈ jobsC5, j.status ≠ .queued → j.job_id ∉ recover_pending_jobs jobsC5) :=
  c5_recovery_requeues_queued { useCelery := false, redisAvailable := false } jobsC5
    rfl (by decide)

/-- C9: the processor handle is lazily constructed at most once per process:
once the `_model` global is set, every later call returns that same handle
without consulting the constructor; a successful construction is cached; a
construction failure (any non-`ImportError` exception) propagates to the
caller (where it is logged and fails only that job, not the worker), leaves
the cache unset, and the construction is retried — and can succeed — on the
next use; the `ImportError` path falls back to the cached `"DUMMY"` handle. -/
theorem c9_model_singleton (b b2 : BuildResult) (m : ModelHandle) (e : String) :
    get_model b (some m) = (.ok m, some m)
    ∧ get_model (.success m) none = (.ok m, some m)
    ∧ get_model .importMissing none = (.ok .dummy, some .dummy)
    ∧ get_model (.failure e) none = (.error e, none)
    ∧ get_model (.success m) (get_model (.failure e) none).2 = (.ok m, some m)
    ∧ get_model b2 (get_model (.success m) none).2 = (.ok m, some m) := by
  refine ⟨rfl, rfl, rfl, rfl, rfl, ?_⟩
  cases b2 <;> rfl

/-- C10: submission never rejects based on content: for every byte string,
including the empty one, a submission with healthy storage and database
succeeds and creates a fresh row with `status = Queued`, `progress = 0` and
`input_checksum` equal to the SHA-256 hex digest of the submitted bytes; an
error outcome can only be produced by the injected storage or database
failure flags, never by the content. -/
theorem c10_submit_never_rejects_content (c : List Nat) (st : SysState)
    (rA uC : Bool) :
    (∃ j st', submit_job rA uC true true c st = .ok (j, st') ∧
      j.status = .queued ∧ j.progress = 0 ∧
      j.input_checksum = calculate_checksum c ∧ SubmittedShape j)
    ∧ (∀ dOk bOk : Bool, ∀ e : String,
        submit_job rA uC dOk bOk c st = .error e → dOk = false ∨ bOk = false) := by
  constructor
  · obtain ⟨j, st', he, hsh, _, hchk, _⟩ := submit_job_ok rA uC c st
    exact ⟨j, st', he, hsh.1, hsh.2.1, hchk, hsh⟩
  · intro dOk bOk e herr
    cases dOk with
    | false => exact Or.inl rfl
    | true =>
      cases bOk with
      | false => exact Or.inr rfl
      | true =>
        obtain ⟨j, st', he, _⟩ := submit_job_ok rA uC c st
        rw [he] at herr
        exact absurd herr (by simp)

/-- C10 witness: the empty byte string is accepted and creates a queued row;
and a concrete `.error` outcome indeed identifies an injected failure flag. -/
theorem c10_submit_never_rejects_content_witness :
    (∃ j st', submit_job false false true true ([] : List Nat) st0 = .ok (j, st') ∧
      j.status = .queued ∧ j.progress = 0 ∧
      j.input_checksum = calculate_checksum [] ∧ SubmittedShape j)
    ∧ (false = false ∨ true = false) :=
  ⟨(c10_submit_never_rejects_content [] st0 false false).1,
   (c10_submit_never_rejects_content [] st0 false false).2 false true
     "disk write failed" rfl⟩
